import Mathlib

/-!
Verification of the FoodieHub backend order-handling core.

This file shallowly embeds the order data model and order operations of the
repository and proves (or refutes) the specification claims about them.

Sources embedded:
- the mongoose order schema and its three pre-save hooks
  (src/models/Coupon.js, order section);
- the order controller handlers createOrder, updateOrderStatus, cancelOrder
  (src/unnamed/part_000);
- the express order route handlers for cancel / status / rate
  (src/routes/orderRoutes.js);
- the POST /api/orders/create flow of src/server.js (duplicate-key retry and
  email dispatch), and the notification functions of
  src/services/emailService.js.

Modelling conventions:
- JS numbers used for money are embedded as rationals (ℚ); quantities as ℕ;
  JS Date timestamps as ℕ milliseconds.
- Statuses and payment methods are strings, exactly as in the JS code; the
  schema enum lists are embedded as string lists checked by validation.
- A mongoose save runs document validation first (mongoose runs all validate
  hooks before any user pre-save hook) and then the user pre-save hooks in
  registration order; a failed validation raises ValidationError and nothing
  is persisted.  The isModified flags are embedded as an explicit record of
  booleans (a path set to an unchanged value is not marked modified).
- findByIdAndUpdate (used by the part_000 updateOrderStatus and
  updatePaymentStatus handlers) applies its update document directly and
  does not run the pre-save hooks.
- JS truthiness of an optional value is embedded by jsOrQ / jsOrStr: the
  fallback is taken when the value is absent, zero, or the empty string.
- Fields of the schema that no claim or hook reads (menuItem ref, images,
  addresses, contact info, customizations, createdAt/updatedAt) are elided
  from the embedded record.
- External effects (the mongodb insert outcome, the smtp transport) are
  embedded as explicit outcome parameters.
-/

/-- One order line item (orderItemSchema in src/models/Coupon.js): a name,
a unit price (min 0) and a quantity (min 1). -/
structure OrderItem where
  name : String
  price : ℚ
  quantity : ℕ
deriving DecidableEq, Repr

/-- The persisted order document (orderSchema in src/models/Coupon.js),
restricted to the fields the hooks and the claimed operations touch. -/
structure Order where
  orderNumber : String
  status : String
  items : List OrderItem
  subtotal : ℚ
  deliveryFee : ℚ
  tax : ℚ
  serviceFee : ℚ
  tip : ℚ
  discountAmount : ℚ
  totalAmount : ℚ
  deliveredAt : Option ℕ
  cancelledAt : Option ℕ
  cancellationReason : Option String
  rated : Bool
  rating : Option ℕ
  review : Option String
deriving DecidableEq, Repr

/-- The mongoose isModified flags relevant to the pre-save hooks: which of
the watched paths were set to a new value before this save. -/
structure ModifiedPaths where
  items : Bool
  deliveryFee : Bool
  tax : Bool
  serviceFee : Bool
  tip : Bool
  discountAmount : Bool
  status : Bool
deriving DecidableEq, Repr

/-- A save in which no watched path changed. -/
def noneModified : ModifiedPaths :=
  { items := false, deliveryFee := false, tax := false, serviceFee := false,
    tip := false, discountAmount := false, status := false }

/-- A save of a freshly constructed document: every set path is modified. -/
def allModified : ModifiedPaths :=
  { items := true, deliveryFee := true, tax := true, serviceFee := true,
    tip := true, discountAmount := true, status := true }

/-- items.reduce((total, item) => total + item.price * item.quantity, 0)
(src/models/Coupon.js, total pre-save hook). -/
def itemsTotal (items : List OrderItem) : ℚ :=
  items.foldl (fun total item => total + item.price * (item.quantity : ℚ)) 0

/-- First pre-save hook of the order schema (src/models/Coupon.js 229-237):
on a new document, unconditionally overwrite orderNumber with the string
"ORD" followed by the millisecond timestamp and the random suffix; on an
update, leave it alone. -/
def orderNumberHook (isNew : Bool) (timestamp random : ℕ) (o : Order) : Order :=
  if isNew then
    { o with orderNumber := "ORD" ++ toString timestamp ++ toString random }
  else o

/-- Second pre-save hook (src/models/Coupon.js 240-253): when items or any
fee/discount path is modified, recompute subtotal from the items and
totalAmount from the fee formula. -/
def totalHook (m : ModifiedPaths) (o : Order) : Order :=
  if m.items || m.deliveryFee || m.tax || m.serviceFee || m.tip || m.discountAmount then
    let t := itemsTotal o.items
    { o with
        subtotal := t
        totalAmount := t + o.deliveryFee + o.tax + o.serviceFee + o.tip - o.discountAmount }
  else o

/-- Third pre-save hook (src/models/Coupon.js 256-267): when status is
modified, stamp deliveredAt on entering delivered (only if unset), else
stamp cancelledAt on entering cancelled (only if unset). -/
def statusTimestampHook (m : ModifiedPaths) (now : ℕ) (o : Order) : Order :=
  if m.status then
    if o.status == "delivered" && o.deliveredAt.isNone then
      { o with deliveredAt := some now }
    else if o.status == "cancelled" && o.cancelledAt.isNone then
      { o with cancelledAt := some now }
    else o
  else o

/-- The status enum of the order schema (src/models/Coupon.js 133-146). -/
def statusEnum : List String :=
  ["pending", "confirmed", "preparing", "ready", "out_for_delivery",
   "delivered", "cancelled", "refunded"]

/-- Schema validation of one item: price min 0, quantity min 1. -/
def validItem (i : OrderItem) : Bool :=
  decide (0 ≤ i.price) && decide (1 ≤ i.quantity)

/-- Mongoose document validation for the embedded fields: status must be in
the enum, monetary fields min 0, items valid, rating within 1..5. -/
def validateOrder (o : Order) : Bool :=
  decide (o.status ∈ statusEnum) && o.items.all validItem &&
  decide (0 ≤ o.subtotal) && decide (0 ≤ o.deliveryFee) && decide (0 ≤ o.tax) &&
  decide (0 ≤ o.serviceFee) && decide (0 ≤ o.tip) && decide (0 ≤ o.discountAmount) &&
  decide (0 ≤ o.totalAmount) &&
  (match o.rating with
   | some r => decide (1 ≤ r) && decide (r ≤ 5)
   | none => true)

/-- order.save(): validation first, then the three pre-save hooks in their
registration order; a validation failure raises ValidationError and
persists nothing. -/
def saveOrder (m : ModifiedPaths) (isNew : Bool) (ts rnd now : ℕ) (o : Order) :
    Except String Order :=
  if validateOrder o then
    .ok (statusTimestampHook m now (totalHook m (orderNumberHook isNew ts rnd o)))
  else
    .error "ValidationError"

/-- Outcome of an express order handler: a JSON success payload carrying the
resulting order, or an error response with its HTTP status code. -/
inductive HResult where
  | ok (order : Order)
  | err (code : ℕ) (msg : String)
deriving DecidableEq, Repr

/-- JS `x || d` on an optional number: the fallback is taken when the value
is absent or zero. -/
def jsOrQ (x : Option ℚ) (d : ℚ) : ℚ :=
  match x with
  | some v => if v = 0 then d else v
  | none => d

/-- JS `x || d` on an optional string: the fallback is taken when the value
is absent or empty. -/
def jsOrStr (x : Option String) (d : String) : String :=
  match x with
  | some s => if s = "" then d else s
  | none => d

/-- The statuses part_000 cancelOrder refuses to cancel from
(src/unnamed/part_000 line 418). -/
def part000NonCancellable : List String :=
  ["preparing", "ready", "out_for_delivery", "delivered"]

/-- The statuses the orderRoutes cancel handler refuses to cancel from
(src/routes/orderRoutes.js line 196). -/
def routeNonCancellable : List String :=
  ["delivered", "cancelled", "out_for_delivery", "ready"]

/-- cancelOrder of src/unnamed/part_000 (lines 398-442), for an order that
was found: ownership check, then the non-cancellable status gate, then
status := cancelled and a document save (which runs the pre-save hooks).
No cancellation reason is recorded by this handler. -/
def cancelOrder (userOwns : Bool) (ts rnd now : ℕ) (o : Order) : HResult :=
  if !userOwns then .err 401 "Not authorized to cancel this order"
  else if o.status ∈ part000NonCancellable then
    .err 400 "Order cannot be cancelled at this stage"
  else
    match saveOrder { noneModified with status := o.status != "cancelled" }
        false ts rnd now { o with status := "cancelled" } with
    | .ok saved => .ok saved
    | .error _ => .err 500 "Server error while cancelling order"

/-- The PUT /:orderId/cancel handler of src/routes/orderRoutes.js
(lines 176-220): ownership check, its own non-cancellable status gate,
then status := cancelled, cancellationReason := req.body.reason ||
"Cancelled by user", and a document save. -/
def routeCancelOrder (userOwns : Bool) (reason : Option String) (ts rnd now : ℕ)
    (o : Order) : HResult :=
  if !userOwns then .err 403 "Access denied"
  else if o.status ∈ routeNonCancellable then
    .err 400 ("Cannot cancel order with status: " ++ o.status)
  else
    match saveOrder { noneModified with status := o.status != "cancelled" }
        false ts rnd now
        { o with
            status := "cancelled"
            cancellationReason := some (jsOrStr reason "Cancelled by user") } with
    | .ok saved => .ok saved
    | .error _ => .err 500 "Error cancelling order"

/-- The status values accepted by part_000 updateOrderStatus (line 297);
note that refunded is missing from this list. -/
def part000ValidStatuses : List String :=
  ["pending", "confirmed", "preparing", "ready", "out_for_delivery",
   "delivered", "cancelled"]

/-- updateOrderStatus of src/unnamed/part_000 (lines 286-341), for an order
that was found: requires a non-empty status in part000ValidStatuses, then
writes it via findByIdAndUpdate (no pre-save hooks run), additionally
setting deliveredAt when the target is delivered and it is still unset.
No transition table is consulted and cancelledAt is never written. -/
def updateOrderStatus (status : Option String) (now : ℕ) (o : Order) : HResult :=
  match status with
  | none => .err 400 "Status is required"
  | some s =>
    if s = "" then .err 400 "Status is required"
    else if s ∈ part000ValidStatuses then
      .ok { o with
              status := s
              deliveredAt := if s == "delivered" && o.deliveredAt.isNone then some now
                             else o.deliveredAt }
    else .err 400 "Invalid status"

/-- The PUT /:orderId/status handler of src/routes/orderRoutes.js
(lines 223-259), for an order that was found: role check, then
order.status := status and a document save; an invalid status only fails
at save time (enum validation), surfacing as the catch-all 500 response.
No transition table is consulted here either. -/
def routeUpdateOrderStatus (isAuthorized : Bool) (status : String) (ts rnd now : ℕ)
    (o : Order) : HResult :=
  if !isAuthorized then .err 403 "Access denied"
  else
    match saveOrder { noneModified with status := o.status != status }
        false ts rnd now { o with status := status } with
    | .ok saved => .ok saved
    | .error _ => .err 500 "Error updating order status"

/-- The POST /:orderId/rate handler of src/routes/orderRoutes.js
(lines 262-307), for an order that was found: ownership check, then the
delivered check, then rated := true, rating, review and a document save.
The rated flag is never consulted before writing. -/
def routeRateOrder (userOwns : Bool) (rating : ℕ) (review : String) (ts rnd now : ℕ)
    (o : Order) : HResult :=
  if !userOwns then .err 403 "Access denied"
  else if !(o.status == "delivered") then .err 400 "Can only rate delivered orders"
  else
    match saveOrder noneModified false ts rnd now
        { o with rated := true, rating := some rating, review := some review } with
    | .ok saved => .ok saved
    | .error _ => .err 500 "Error rating order"

/-- Modelled from the spec: the allowed-edge table of section 4.4 (states
pending, confirmed, preparing, ready, out_for_delivery, delivered,
cancelled, refunded; self loops are no-ops).  The repository code has no
such table; this definition exists only to compare the spec against the
code. -/
def specAllowedTransition (a b : String) : Bool :=
  a == b ||
  (a == "pending" && (b == "confirmed" || b == "cancelled")) ||
  (a == "confirmed" && (b == "preparing" || b == "cancelled")) ||
  (a == "preparing" && (b == "ready" || b == "cancelled")) ||
  (a == "ready" && b == "out_for_delivery") ||
  (a == "out_for_delivery" && b == "delivered") ||
  (a == "delivered" && b == "refunded")

/-- The request fields feeding the totals computation of part_000
createOrder (lines 25-40): items plus the client-supplied advisory
numbers, each absent when not sent. -/
structure CreateTotalsInput where
  items : List OrderItem
  deliveryType : String
  tip : Option ℚ
  subtotal : Option ℚ
  deliveryFee : Option ℚ
  tax : Option ℚ
  total : Option ℚ
deriving DecidableEq, Repr

/-- const calculatedSubtotal = subtotal || items.reduce(...)
(src/unnamed/part_000 line 67). -/
def calculatedSubtotal (inp : CreateTotalsInput) : ℚ :=
  jsOrQ inp.subtotal (itemsTotal inp.items)

/-- const calculatedDeliveryFee = deliveryFee || (delivery ? 2.99 : 0)
(src/unnamed/part_000 line 68). -/
def calculatedDeliveryFee (inp : CreateTotalsInput) : ℚ :=
  jsOrQ inp.deliveryFee (if inp.deliveryType = "delivery" then 299/100 else 0)

/-- const calculatedTax = tax || (calculatedSubtotal * 0.08)
(src/unnamed/part_000 line 69). -/
def calculatedTax (inp : CreateTotalsInput) : ℚ :=
  jsOrQ inp.tax (calculatedSubtotal inp * (8/100))

/-- const calculatedTip = parseFloat(tip) || 0 (src/unnamed/part_000
line 70). -/
def calculatedTip (inp : CreateTotalsInput) : ℚ :=
  jsOrQ inp.tip 0

/-- const calculatedTotal = total || (subtotal + fee + tax + tip)
(src/unnamed/part_000 line 71). -/
def calculatedTotal (inp : CreateTotalsInput) : ℚ :=
  jsOrQ inp.total
    (calculatedSubtotal inp + calculatedDeliveryFee inp + calculatedTax inp +
      calculatedTip inp)

/-- The claim-relevant fields of the orderData object built by part_000
createOrder (lines 82-119). -/
structure CreateOrderData where
  items : List OrderItem
  subtotal : ℚ
  deliveryFee : ℚ
  tax : ℚ
  tip : ℚ
  totalAmount : ℚ
  paymentMethod : String
  paymentStatus : String
  status : String
deriving DecidableEq, Repr

/-- The orderData object of part_000 createOrder (lines 82-119): totals
from the calculated* values, paymentStatus pending for cash and completed
otherwise, and status hardcoded to confirmed. -/
def createOrderData (inp : CreateTotalsInput) (paymentMethod : String) :
    CreateOrderData :=
  { items := inp.items,
    subtotal := calculatedSubtotal inp,
    deliveryFee := calculatedDeliveryFee inp,
    tax := calculatedTax inp,
    tip := calculatedTip inp,
    totalAmount := calculatedTotal inp,
    paymentMethod := paymentMethod,
    paymentStatus := if paymentMethod == "cash" then "pending" else "completed",
    status := "confirmed" }

/-- The claim-relevant request body fields of POST /api/orders/create
(src/server.js). -/
structure ServerCreateBody where
  subtotal : Option ℚ
  deliveryFee : Option ℚ
  tax : Option ℚ
  tip : Option ℚ
  total : Option ℚ
  paymentMethod : Option String
  deliveryType : Option String
deriving DecidableEq, Repr

/-- The claim-relevant fields of the orderData object of
POST /api/orders/create (src/server.js 617-648). -/
structure ServerOrderData where
  orderNumber : String
  subtotal : ℚ
  deliveryFee : ℚ
  tax : ℚ
  tip : ℚ
  total : ℚ
  paymentMethod : String
  deliveryType : String
  status : String
deriving DecidableEq, Repr

/-- The orderData object of src/server.js (lines 617-648): every monetary
field is parseFloat(body.field) || 0 (client value stored verbatim, zero
fallback, no recomputation from the items), and status is hardcoded to
confirmed. -/
def serverOrderData (orderNumber : String) (body : ServerCreateBody) :
    ServerOrderData :=
  { orderNumber := orderNumber,
    subtotal := jsOrQ body.subtotal 0,
    deliveryFee := jsOrQ body.deliveryFee 0,
    tax := jsOrQ body.tax 0,
    tip := jsOrQ body.tip 0,
    total := jsOrQ body.total 0,
    paymentMethod := jsOrStr body.paymentMethod "credit_card",
    deliveryType := jsOrStr body.deliveryType "delivery",
    status := "confirmed" }

/-- Outcome of one mongodb save attempt in the src/server.js create flow. -/
inductive SaveOutcome where
  | ok
  | dupKey
  | validationFail
  | otherError
deriving DecidableEq, Repr

/-- The HTTP-level result of the src/server.js create flow, with the
attempt number that produced the created order. -/
inductive CreateResult where
  | created (attempt : ℕ)
  | badRequest (msg : String)
  | serverError (msg : String)
deriving DecidableEq, Repr

/-- The persistence part of POST /api/orders/create (src/server.js
658-696 and the outer catch 741-766): first save attempt; a
ValidationError answers 400; a duplicate key (code 11000) regenerates the
order number and retries exactly once, unguarded, so a failure of the
retry propagates to the outer catch (11000 becomes 400 "Duplicate order
detected", ValidationError 400, anything else 500). -/
def createOrderPersist (first second : SaveOutcome) : CreateResult :=
  match first with
  | .ok => .created 1
  | .validationFail => .badRequest "Order validation failed"
  | .dupKey =>
    match second with
    | .ok => .created 2
    | .dupKey => .badRequest "Duplicate order detected"
    | .validationFail => .badRequest "Order validation failed"
    | .otherError => .serverError "Failed to create order"
  | .otherError => .serverError "Failed to create order"

/-- sendOrderConfirmationEmail of src/services/emailService.js (34-185):
whole body inside try/catch, returns false when credentials are missing or
the transport fails and true on success; it never throws. -/
def sendOrderConfirmationEmail (credsConfigured : Bool)
    (transport : Except String Unit) : Bool :=
  if !credsConfigured then false
  else
    match transport with
    | .ok _ => true
    | .error _ => false

/-- sendAdminNotification of src/services/emailService.js (188-391): same
shape as the customer email, aimed at the admin address. -/
def sendAdminNotification (credsConfigured : Bool)
    (transport : Except String Unit) : Bool :=
  if !credsConfigured then false
  else
    match transport with
    | .ok _ => true
    | .error _ => false

/-- The emailResults record of src/server.js (706-709). -/
structure EmailResults where
  customerEmail : Bool
  adminEmail : Bool
deriving DecidableEq, Repr

/-- The email dispatch block of src/server.js (711-729): inside a
try/catch whose catch only logs; a missing or empty contact email skips
the customer notification; the admin notification is always attempted.
The helpers return booleans and never throw, so both failures surface as
false flags only. -/
def emailDispatch (contactEmail : Option String) (credsConfigured : Bool)
    (customerTransport adminTransport : Except String Unit) : EmailResults :=
  { customerEmail :=
      match contactEmail with
      | some e =>
        if e = "" then false
        else sendOrderConfirmationEmail credsConfigured customerTransport
      | none => false,
    adminEmail := sendAdminNotification credsConfigured adminTransport }

/-- The creation response of src/server.js (733-739). -/
structure CreateResponse where
  statusCode : ℕ
  success : Bool
  order : ServerOrderData
  emailSent : Bool
deriving DecidableEq, Repr

/-- The tail of POST /api/orders/create after a successful persistence
(src/server.js 705-739): dispatch the notification emails, then always
answer 201 success with the saved order (the literal emailSent: true is
sent regardless of the actual email results). -/
def createOrderRespond (savedOrder : ServerOrderData) (contactEmail : Option String)
    (credsConfigured : Bool) (customerTransport adminTransport : Except String Unit) :
    EmailResults × CreateResponse :=
  let emails := emailDispatch contactEmail credsConfigured customerTransport adminTransport
  (emails,
   { statusCode := 201, success := true, order := savedOrder, emailSent := true })

/-- A concrete order used to instantiate witnesses and counterexamples. -/
def sampleOrder : Order :=
  { orderNumber := "ORD17000000000000123", status := "pending",
    items := [⟨"Margherita", 10, 1⟩, ⟨"Garlic Bread", 3, 2⟩],
    subtotal := 16, deliveryFee := 3, tax := 1, serviceFee := 0,
    tip := 2, discountAmount := 0, totalAmount := 0,
    deliveredAt := none, cancelledAt := none, cancellationReason := none,
    rated := false, rating := none, review := none }

/-- The order produced by a fresh save of sampleOrder with timestamp 17,
random suffix 423 and clock 99. -/
def savedSample : Order :=
  { sampleOrder with
      orderNumber := "ORD17423"
      subtotal := 16
      totalAmount := 22 }

/-- A delivered order whose deliveredAt is already stamped. -/
def deliveredOrder : Order :=
  { sampleOrder with status := "delivered", deliveredAt := some 5 }

/-- A delivered order that has already been rated. -/
def ratedDeliveredOrder : Order :=
  { sampleOrder with
      status := "delivered"
      deliveredAt := some 5
      rated := true
      rating := some 5
      review := some "Great" }

/-- A creation request whose client-supplied totals disagree with its
items: one 10.00 pizza, claimed subtotal 999 and claimed total 50. -/
def clientTotalsInput : CreateTotalsInput :=
  { items := [⟨"Pizza", 10, 1⟩], deliveryType := "delivery", tip := some 0,
    subtotal := some 999, deliveryFee := some 5, tax := some 1, total := some 50 }

/-- A POST /api/orders/create body paying cash with a client-supplied
total of 50. -/
def cashBody : ServerCreateBody :=
  { subtotal := some 999, deliveryFee := some 5, tax := some 1, tip := some 0,
    total := some 50, paymentMethod := some "cash", deliveryType := some "delivery" }

/-- A cancelled order whose cancelledAt is already stamped. -/
def cancelledOrder : Order :=
  { sampleOrder with status := "cancelled", cancelledAt := some 6 }

/-- The status stored in a success response, if the response is one. -/
def resultStatus : HResult → Option String
  | .ok o => some o.status
  | .err _ _ => none

/-- The orderData object of part_000 createOrder viewed as a document of
the hook-bearing order schema (the model part_000 saves through): the
shared fields are copied, serviceFee and discountAmount take their schema
defaults 0, timestamps and feedback start unset, and the orderNumber
parameter stands for whatever value passes the required check — the
pre-save hook overwrites it on insert anyway. -/
def orderFromCreateData (d : CreateOrderData) (orderNumber : String) : Order :=
  { orderNumber := orderNumber, status := d.status, items := d.items,
    subtotal := d.subtotal, deliveryFee := d.deliveryFee, tax := d.tax,
    serviceFee := 0, tip := d.tip, discountAmount := 0,
    totalAmount := d.totalAmount,
    deliveredAt := none, cancelledAt := none, cancellationReason := none,
    rated := false, rating := none, review := none }

/-- The order persisted by saving the orderData built from
clientTotalsInput through the hook-bearing model: the total hook replaces
the client subtotal 999 by the item sum 10 and the client total 50 by
10 + 5 + 1 + 0 + 0, while the client deliveryFee 5 and tax 1 survive
verbatim as inputs of that recomputation. -/
def clientOrderDataSaved : Order :=
  { orderNumber := "ORD17423", status := "confirmed",
    items := [⟨"Pizza", 10, 1⟩],
    subtotal := 10, deliveryFee := 5, tax := 1, serviceFee := 0, tip := 0,
    discountAmount := 0, totalAmount := 16,
    deliveredAt := none, cancelledAt := none, cancellationReason := none,
    rated := false, rating := none, review := none }

/-! Helper lemmas: each pre-save hook touches only its own fields. -/

theorem orderNumberHook_fields (isNew : Bool) (ts rnd : ℕ) (o : Order) :
    (orderNumberHook isNew ts rnd o).status = o.status ∧
    (orderNumberHook isNew ts rnd o).items = o.items ∧
    (orderNumberHook isNew ts rnd o).subtotal = o.subtotal ∧
    (orderNumberHook isNew ts rnd o).deliveryFee = o.deliveryFee ∧
    (orderNumberHook isNew ts rnd o).tax = o.tax ∧
    (orderNumberHook isNew ts rnd o).serviceFee = o.serviceFee ∧
    (orderNumberHook isNew ts rnd o).tip = o.tip ∧
    (orderNumberHook isNew ts rnd o).discountAmount = o.discountAmount ∧
    (orderNumberHook isNew ts rnd o).totalAmount = o.totalAmount ∧
    (orderNumberHook isNew ts rnd o).deliveredAt = o.deliveredAt ∧
    (orderNumberHook isNew ts rnd o).cancelledAt = o.cancelledAt := by
  unfold orderNumberHook
  split <;> simp

theorem totalHook_fields (m : ModifiedPaths) (o : Order) :
    (totalHook m o).orderNumber = o.orderNumber ∧
    (totalHook m o).status = o.status ∧
    (totalHook m o).items = o.items ∧
    (totalHook m o).deliveryFee = o.deliveryFee ∧
    (totalHook m o).tax = o.tax ∧
    (totalHook m o).serviceFee = o.serviceFee ∧
    (totalHook m o).tip = o.tip ∧
    (totalHook m o).discountAmount = o.discountAmount ∧
    (totalHook m o).deliveredAt = o.deliveredAt ∧
    (totalHook m o).cancelledAt = o.cancelledAt := by
  unfold totalHook
  split <;> simp

theorem statusTimestampHook_fields (m : ModifiedPaths) (now : ℕ) (o : Order) :
    (statusTimestampHook m now o).orderNumber = o.orderNumber ∧
    (statusTimestampHook m now o).status = o.status ∧
    (statusTimestampHook m now o).items = o.items ∧
    (statusTimestampHook m now o).subtotal = o.subtotal ∧
    (statusTimestampHook m now o).deliveryFee = o.deliveryFee ∧
    (statusTimestampHook m now o).tax = o.tax ∧
    (statusTimestampHook m now o).serviceFee = o.serviceFee ∧
    (statusTimestampHook m now o).tip = o.tip ∧
    (statusTimestampHook m now o).discountAmount = o.discountAmount ∧
    (statusTimestampHook m now o).totalAmount = o.totalAmount := by
  unfold statusTimestampHook
  repeat' split
  all_goals simp

theorem totalHook_computed (m : ModifiedPaths) (o : Order)
    (hm : (m.items || m.deliveryFee || m.tax || m.serviceFee || m.tip ||
           m.discountAmount) = true) :
    (totalHook m o).subtotal = itemsTotal o.items ∧
    (totalHook m o).totalAmount =
      itemsTotal o.items + o.deliveryFee + o.tax + o.serviceFee + o.tip -
        o.discountAmount := by
  unfold totalHook
  simp [hm]

/-- C1: for every save that modifies the items or any of deliveryFee, tax,
serviceFee, tip, discountAmount, the persisted order satisfies
totalAmount = subtotal + deliveryFee + tax + serviceFee + tip -
discountAmount with subtotal the sum over items of price * quantity, and
recomputing on the persisted order, whose inputs did not change, leaves
subtotal and totalAmount unchanged (idempotent recomputation). -/
theorem saveOrder_total_invariant (m : ModifiedPaths) (isNew : Bool)
    (ts rnd now : ℕ) (o saved : Order)
    (hm : (m.items || m.deliveryFee || m.tax || m.serviceFee || m.tip ||
           m.discountAmount) = true)
    (hs : saveOrder m isNew ts rnd now o = .ok saved) :
    (saved.totalAmount =
        saved.subtotal + saved.deliveryFee + saved.tax + saved.serviceFee +
          saved.tip - saved.discountAmount
      ∧ saved.subtotal = itemsTotal saved.items)
    ∧ (totalHook m saved).subtotal = saved.subtotal
    ∧ (totalHook m saved).totalAmount = saved.totalAmount := by
  unfold saveOrder at hs
  split at hs
  · injection hs with h
    subst h
    obtain ⟨-, -, si, ssub, sdf, stx, ssf, stp, sda, sta⟩ :=
      statusTimestampHook_fields m now (totalHook m (orderNumberHook isNew ts rnd o))
    obtain ⟨tsub, tta⟩ := totalHook_computed m (orderNumberHook isNew ts rnd o) hm
    obtain ⟨-, -, ti, tdf, ttx, tsf, ttp, tda, -, -⟩ :=
      totalHook_fields m (orderNumberHook isNew ts rnd o)
    obtain ⟨rsub, rta⟩ :=
      totalHook_computed m
        (statusTimestampHook m now (totalHook m (orderNumberHook isNew ts rnd o))) hm
    refine ⟨⟨?_, ?_⟩, ?_, ?_⟩
    · rw [sta, tta, ssub, tsub, sdf, tdf, stx, ttx, ssf, tsf, stp, ttp, sda, tda]
    · rw [ssub, tsub, si, ti]
    · rw [rsub, si, ti, ssub, tsub]
    · rw [rta, si, ti, sdf, tdf, stx, ttx, ssf, tsf, stp, ttp, sda, tda, sta, tta]
  · cases hs

/-- Witness for C1: a fresh save of sampleOrder (every path modified)
persists savedSample, which satisfies the totals invariant and is a
fixed point of recomputation. -/
theorem saveOrder_total_invariant_witness :
    (savedSample.totalAmount =
        savedSample.subtotal + savedSample.deliveryFee + savedSample.tax +
          savedSample.serviceFee + savedSample.tip - savedSample.discountAmount
      ∧ savedSample.subtotal = itemsTotal savedSample.items)
    ∧ (totalHook allModified savedSample).subtotal = savedSample.subtotal
    ∧ (totalHook allModified savedSample).totalAmount = savedSample.totalAmount := by
  have hval : validateOrder sampleOrder = true := by
    norm_num [validateOrder, statusEnum, validItem, sampleOrder]
  have hs : saveOrder allModified true 17 423 99 sampleOrder = .ok savedSample := by
    unfold saveOrder
    rw [hval]
    simp only [if_pos]
    simp [orderNumberHook, totalHook, statusTimestampHook, itemsTotal,
          sampleOrder, savedSample, allModified, Order.mk.injEq]
    norm_num
    decide
  exact saveOrder_total_invariant allModified true 17 423 99 sampleOrder savedSample
    (by decide) hs

/-- C10: every new order persisted through the model carries the hook
generated order number, the string ORD followed by the timestamp and the
random suffix; the conclusion does not depend on the orderNumber the
caller supplied in o, so the caller cannot choose the stored number. -/
theorem saveOrder_orderNumber (m : ModifiedPaths) (ts rnd now : ℕ)
    (o saved : Order) (hs : saveOrder m true ts rnd now o = .ok saved) :
    saved.orderNumber = "ORD" ++ toString ts ++ toString rnd := by
  unfold saveOrder at hs
  split at hs
  · injection hs with h
    subst h
    rw [(statusTimestampHook_fields m now _).1, (totalHook_fields m _).1]
    simp [orderNumberHook]
  · cases hs

/-- Witness for C10: the fresh save of sampleOrder, which supplied its own
orderNumber, persists with the hook generated one. -/
theorem saveOrder_orderNumber_witness :
    savedSample.orderNumber = "ORD" ++ toString 17 ++ toString 423 := by
  have hval : validateOrder sampleOrder = true := by
    norm_num [validateOrder, statusEnum, validItem, sampleOrder]
  have hs : saveOrder allModified true 17 423 99 sampleOrder = .ok savedSample := by
    unfold saveOrder
    rw [hval]
    simp only [if_pos]
    simp [orderNumberHook, totalHook, statusTimestampHook, itemsTotal,
          sampleOrder, savedSample, allModified, Order.mk.injEq]
    norm_num
    decide
  exact saveOrder_orderNumber allModified 17 423 99 sampleOrder savedSample hs

/-- C8 counterexample: the part_000 admin status update transitions
sampleOrder (pending, cancelledAt unset) into cancelled for the first
time, yet the persisted order has no cancelledAt: this path writes the
status via findByIdAndUpdate, which bypasses the pre-save hooks and only
handles deliveredAt explicitly. -/
theorem updateOrderStatus_cancelled_no_timestamp :
    updateOrderStatus (some "cancelled") 7 sampleOrder =
      .ok { sampleOrder with status := "cancelled" }
    ∧ ({ sampleOrder with status := "cancelled" } : Order).cancelledAt = none := by
  constructor
  · simp [updateOrderStatus, part000ValidStatuses]
  · rfl

/-- C8 amended: on hook-running saves, deliveredAt is stamped on the first
entry into delivered and left unchanged when already set, and likewise
cancelledAt on entering cancelled; a save that does not modify status
changes neither; the part_000 status update sets deliveredAt through its
explicit guard (once, first unset write) but never writes cancelledAt. -/
theorem statusTimestampHook_once (m : ModifiedPaths) (o : Order) (now : ℕ) :
    (m.status = false → statusTimestampHook m now o = o)
    ∧ (m.status = true → o.status = "delivered" →
        (statusTimestampHook m now o).deliveredAt = some (o.deliveredAt.getD now)
        ∧ (statusTimestampHook m now o).cancelledAt = o.cancelledAt)
    ∧ (m.status = true → o.status = "cancelled" →
        (statusTimestampHook m now o).cancelledAt = some (o.cancelledAt.getD now)
        ∧ (statusTimestampHook m now o).deliveredAt = o.deliveredAt)
    ∧ updateOrderStatus (some "delivered") now o =
        .ok { o with status := "delivered",
                     deliveredAt := some (o.deliveredAt.getD now) }
    ∧ updateOrderStatus (some "cancelled") now o =
        .ok { o with status := "cancelled" } := by
  refine ⟨?_, ?_, ?_, ?_, ?_⟩
  · intro h
    simp [statusTimestampHook, h]
  · intro h hd
    cases hde : o.deliveredAt <;>
      simp [statusTimestampHook, h, hd, hde]
  · intro h hc
    cases hca : o.cancelledAt <;>
      simp [statusTimestampHook, h, hc, hca]
  · cases hde : o.deliveredAt <;>
      simp [updateOrderStatus, part000ValidStatuses, hde]
  · simp [updateOrderStatus, part000ValidStatuses]

/-- Witness for C8 amended: a repeated delivered save leaves the stamped
deliveredAt 5 untouched, a repeated cancelled save leaves cancelledAt 6
untouched, and an unmodified-status save changes nothing. -/
theorem statusTimestampHook_once_witness :
    (statusTimestampHook allModified 9 deliveredOrder).deliveredAt = some 5
    ∧ (statusTimestampHook allModified 9 deliveredOrder).cancelledAt = none
    ∧ (statusTimestampHook allModified 9 cancelledOrder).cancelledAt = some 6
    ∧ statusTimestampHook noneModified 9 deliveredOrder = deliveredOrder := by
  have hd := (statusTimestampHook_once allModified deliveredOrder 9).2.1 rfl rfl
  have hc := (statusTimestampHook_once allModified cancelledOrder 9).2.2.1 rfl rfl
  have h0 := (statusTimestampHook_once noneModified deliveredOrder 9).1 rfl
  exact ⟨hd.1, hd.2, hc.1, h0⟩

theorem saveOrder_cancel (b : Bool) (ts rnd now : ℕ) (X : Order)
    (hst : X.status = "cancelled") (hval : validateOrder X = true) :
    saveOrder { noneModified with status := b } false ts rnd now X =
      .ok { X with cancelledAt := if b && X.cancelledAt.isNone then some now
                                  else X.cancelledAt } := by
  unfold saveOrder
  rw [hval]
  obtain ⟨f1, st, f3, f4, f5, f6, f7, f8, f9, f10, f11, ca, f13, f14, f15, f16⟩ := X
  replace hst : st = "cancelled" := hst
  subst hst
  cases b <;> cases ca <;>
    simp [orderNumberHook, totalHook, statusTimestampHook, noneModified]

/-- C3 counterexample: the orderRoutes cancel handler cancels an order in
status preparing: it succeeds and mutates the order, where the claim says
Cancel from preparing is rejected with the order unchanged. -/
theorem routeCancelOrder_from_preparing :
    routeCancelOrder true none 1 2 3 { sampleOrder with status := "preparing" } =
      .ok { sampleOrder with
              status := "cancelled"
              cancelledAt := some 3
              cancellationReason := some "Cancelled by user" } := by
  decide

/-- C3 amended: part_000 cancelOrder rejects exactly from preparing, ready,
out_for_delivery and delivered — so it also succeeds from cancelled and
refunded — and records no cancellation reason; the orderRoutes cancel
handler rejects exactly from ready, out_for_delivery, delivered and
cancelled — so it succeeds from preparing and refunded — and records the
given reason with default "Cancelled by user"; on success the status
becomes cancelled and cancelledAt is stamped once by the pre-save hook. -/
theorem cancelOrder_policy (o : Order) (reason : Option String) (ts rnd now : ℕ)
    (hval : validateOrder { o with status := "cancelled" } = true) :
    (o.status ∈ part000NonCancellable →
      cancelOrder true ts rnd now o =
        .err 400 "Order cannot be cancelled at this stage")
    ∧ (o.status ∉ part000NonCancellable →
      cancelOrder true ts rnd now o =
        .ok { o with
                status := "cancelled"
                cancelledAt := if o.status == "cancelled" then o.cancelledAt
                               else some (o.cancelledAt.getD now) })
    ∧ (o.status ∈ routeNonCancellable →
      routeCancelOrder true reason ts rnd now o =
        .err 400 ("Cannot cancel order with status: " ++ o.status))
    ∧ (o.status ∉ routeNonCancellable →
      routeCancelOrder true reason ts rnd now o =
        .ok { o with
                status := "cancelled"
                cancellationReason := some (jsOrStr reason "Cancelled by user")
                cancelledAt := some (o.cancelledAt.getD now) }) := by
  have hval2 : validateOrder
      { o with
          status := "cancelled"
          cancellationReason := some (jsOrStr reason "Cancelled by user") } = true := hval
  refine ⟨?_, ?_, ?_, ?_⟩
  · intro hmem
    simp [cancelOrder, hmem]
  · intro hmem
    unfold cancelOrder
    rw [if_neg (by simp), if_neg hmem,
        saveOrder_cancel (o.status != "cancelled") ts rnd now _ rfl hval]
    by_cases hc : o.status = "cancelled"
    · simp [hc]
    · have hb : (o.status != "cancelled") = true := by
        simp [bne_iff_ne, hc]
      cases hca : o.cancelledAt <;> simp [hb, hca, hc]
  · intro hmem
    simp [routeCancelOrder, hmem]
  · intro hmem
    have hc : o.status ≠ "cancelled" := fun h => hmem (by simp [routeNonCancellable, h])
    have hb : (o.status != "cancelled") = true := by
      simp [bne_iff_ne, hc]
    unfold routeCancelOrder
    rw [if_neg (by simp), if_neg hmem,
        saveOrder_cancel (o.status != "cancelled") ts rnd now _ rfl hval2]
    cases hca : o.cancelledAt <;> simp [hb, hca]

/-- Witness for C3 amended: concrete runs of both cancel handlers,
exercising success from pending (both handlers) and rejection from
preparing (part_000) and ready (route). -/
theorem cancelOrder_policy_witness :
    cancelOrder true 1 2 3 sampleOrder =
      .ok { sampleOrder with status := "cancelled", cancelledAt := some 3 }
    ∧ cancelOrder true 1 2 3 { sampleOrder with status := "preparing" } =
        .err 400 "Order cannot be cancelled at this stage"
    ∧ routeCancelOrder true none 1 2 3 { sampleOrder with status := "ready" } =
        .err 400 "Cannot cancel order with status: ready"
    ∧ routeCancelOrder true (some "changed my mind") 1 2 3 sampleOrder =
        .ok { sampleOrder with
                status := "cancelled"
                cancellationReason := some "changed my mind"
                cancelledAt := some 3 } := by
  refine ⟨?_, ?_, ?_, ?_⟩
  · exact (cancelOrder_policy sampleOrder none 1 2 3 (by decide)).2.1 (by decide)
  · exact (cancelOrder_policy { sampleOrder with status := "preparing" } none 1 2 3
      (by decide)).1 (by decide)
  · exact (cancelOrder_policy { sampleOrder with status := "ready" } none 1 2 3
      (by decide)).2.2.1 (by decide)
  · exact (cancelOrder_policy sampleOrder (some "changed my mind") 1 2 3
      (by decide)).2.2.2 (by decide)

/-- C4 counterexample: the part_000 status update moves an order from
delivered to pending — an edge absent from the spec transition table —
and succeeds, mutating the order instead of rejecting the request. -/
theorem updateOrderStatus_ignores_table :
    specAllowedTransition "delivered" "pending" = false
    ∧ updateOrderStatus (some "pending") 7 deliveredOrder =
        .ok { deliveredOrder with status := "pending" } := by
  constructor
  · decide
  · decide

/-- C4 amended: both status-update handlers consult no transition table:
part_000 accepts any status in its seven-value list (refunded excluded)
from any current status, rejecting only unknown values with 400 Invalid
status; the orderRoutes handler accepts any status of the schema enum
from any current status (the success response stores the requested
status), and an unknown status only fails the enum validation at save
time, surfacing as its catch-all 500 response. -/
theorem updateOrderStatus_no_table (s : String) (o : Order) (ts rnd now : ℕ) :
    (s ∈ part000ValidStatuses →
      updateOrderStatus (some s) now o =
        .ok { o with
                status := s
                deliveredAt := if s == "delivered" && o.deliveredAt.isNone then some now
                               else o.deliveredAt })
    ∧ (s ∉ part000ValidStatuses → s ≠ "" →
      updateOrderStatus (some s) now o = .err 400 "Invalid status")
    ∧ (s ∈ statusEnum → validateOrder { o with status := s } = true →
      resultStatus (routeUpdateOrderStatus true s ts rnd now o) = some s)
    ∧ (s ∉ statusEnum →
      routeUpdateOrderStatus true s ts rnd now o =
        .err 500 "Error updating order status") := by
  refine ⟨?_, ?_, ?_, ?_⟩
  · intro hmem
    have hne : s ≠ "" := by
      intro h
      subst h
      simp [part000ValidStatuses] at hmem
    simp [updateOrderStatus, hmem, hne]
  · intro hmem hne
    simp [updateOrderStatus, hmem, hne]
  · intro hmem hval
    unfold routeUpdateOrderStatus
    rw [if_neg (by simp)]
    unfold saveOrder
    rw [hval]
    simp [resultStatus]
    rw [(statusTimestampHook_fields _ _ _).2.1, (totalHook_fields _ _).2.1,
        (orderNumberHook_fields _ _ _ _).1]
  · intro hmem
    have hv : validateOrder { o with status := s } = false := by
      simp [validateOrder, hmem]
    unfold routeUpdateOrderStatus
    rw [if_neg (by simp)]
    unfold saveOrder
    rw [hv]
    simp

/-- Witness for C4 amended: a backwards confirmed-to-pending update
succeeds in part_000, the route handler likewise accepts pending on a
delivered order (storing pending), refunded is rejected by part_000 as
an invalid value, and an unknown status surfaces as a 500 from the
orderRoutes handler. -/
theorem updateOrderStatus_no_table_witness :
    updateOrderStatus (some "pending") 7 { sampleOrder with status := "confirmed" } =
      .ok { sampleOrder with status := "pending" }
    ∧ updateOrderStatus (some "refunded") 7 sampleOrder = .err 400 "Invalid status"
    ∧ resultStatus (routeUpdateOrderStatus true "pending" 1 2 3 deliveredOrder) =
        some "pending"
    ∧ routeUpdateOrderStatus true "bogus" 1 2 3 sampleOrder =
        .err 500 "Error updating order status" := by
  refine ⟨?_, ?_, ?_, ?_⟩
  · exact (updateOrderStatus_no_table "pending"
      { sampleOrder with status := "confirmed" } 1 2 7).1 (by decide)
  · exact (updateOrderStatus_no_table "refunded" sampleOrder 1 2 7).2.1
      (by decide) (by decide)
  · exact (updateOrderStatus_no_table "pending" deliveredOrder 1 2 3).2.2.1
      (by decide) (by decide)
  · exact (updateOrderStatus_no_table "bogus" sampleOrder 1 2 3).2.2.2 (by decide)

/-- C5 counterexample: rating an already rated delivered order succeeds a
second time and overwrites the stored rating and review, where the claim
says the second call must fail once rated is true. -/
theorem routeRateOrder_second_call :
    ratedDeliveredOrder.rated = true
    ∧ routeRateOrder true 1 "meh" 1 2 3 ratedDeliveredOrder =
        .ok { ratedDeliveredOrder with
                rated := true
                rating := some 1
                review := some "meh" } := by
  constructor
  · rfl
  · decide

/-- C5 amended: Rate succeeds exactly when status is delivered — the rated
flag is never consulted, so repeated calls keep succeeding, overwriting
rating and review — and fails with the 400 invalid-operation response when
the order is not delivered. -/
theorem routeRateOrder_policy (o : Order) (rating : ℕ) (review : String)
    (ts rnd now : ℕ) :
    (o.status ≠ "delivered" →
      routeRateOrder true rating review ts rnd now o =
        .err 400 "Can only rate delivered orders")
    ∧ (o.status = "delivered" →
      validateOrder
        { o with rated := true, rating := some rating, review := some review } = true →
      routeRateOrder true rating review ts rnd now o =
        .ok { o with rated := true, rating := some rating, review := some review }) := by
  constructor
  · intro h
    have hb : (o.status == "delivered") = false := by
      simp [h]
    simp [routeRateOrder, hb]
  · intro h hval
    have hb : (o.status == "delivered") = true := by
      simp [h]
    unfold routeRateOrder
    rw [if_neg (by simp), if_neg (by simp [hb])]
    unfold saveOrder
    rw [hval]
    simp [orderNumberHook, totalHook, statusTimestampHook, noneModified]

/-- Witness for C5 amended: a second rating of ratedDeliveredOrder
succeeds, and rating a pending order is rejected. -/
theorem routeRateOrder_policy_witness :
    routeRateOrder true 2 "ok" 1 2 3 ratedDeliveredOrder =
      .ok { ratedDeliveredOrder with
              rated := true
              rating := some 2
              review := some "ok" }
    ∧ routeRateOrder true 2 "ok" 1 2 3 sampleOrder =
        .err 400 "Can only rate delivered orders" := by
  constructor
  · exact (routeRateOrder_policy ratedDeliveredOrder 2 "ok" 1 2 3).2 rfl (by decide)
  · exact (routeRateOrder_policy sampleOrder 2 "ok" 1 2 3).1 (by decide)

/-- C2 counterexample: with an order-number collision injected on both the
first save and the retry, creation does not succeed on a third attempt —
the flow makes no third attempt at all and answers 400 Duplicate order
detected, not a distinct retries-exhausted error. -/
theorem createOrderPersist_two_collisions :
    createOrderPersist .dupKey .dupKey = .badRequest "Duplicate order detected"
    ∧ createOrderPersist .dupKey .dupKey ≠ .created 3 := by
  constructor
  · rfl
  · decide

/-- C2 amended: the create flow retries a duplicate-key failure exactly
once with a regenerated order number: a single collision is recovered on
the second attempt, a second collision fails the request as a 400
duplicate error, and every non-duplicate failure propagates without any
retry (validation errors as 400, anything else as 500). -/
theorem createOrderPersist_retry_once (second : SaveOutcome) :
    createOrderPersist .ok second = .created 1
    ∧ createOrderPersist .dupKey .ok = .created 2
    ∧ createOrderPersist .dupKey .dupKey = .badRequest "Duplicate order detected"
    ∧ createOrderPersist .validationFail second = .badRequest "Order validation failed"
    ∧ createOrderPersist .otherError second = .serverError "Failed to create order"
    ∧ createOrderPersist .dupKey .validationFail = .badRequest "Order validation failed"
    ∧ createOrderPersist .dupKey .otherError = .serverError "Failed to create order" :=
  ⟨rfl, rfl, rfl, rfl, rfl, rfl, rfl⟩

/-- C6 counterexample: the server.js create flow stores the dishonest
client total 50 verbatim as the persisted total (its inline schema has no
total hook), so the stored amounts are not recomputed server-side; and on
the part_000 path, saving the orderData — which carried the client
subtotal 999 and total 50 verbatim — through the hook-bearing model
persists the client deliveryFee 5 and tax 1 verbatim (the server rules
would give 2.99 and 8 percent of 10), while the hook replaces subtotal
and totalAmount by 10 and 16. -/
theorem clientTotals_stored_verbatim :
    (createOrderData clientTotalsInput "credit_card").subtotal = 999
    ∧ (createOrderData clientTotalsInput "credit_card").totalAmount = 50
    ∧ itemsTotal clientTotalsInput.items = 10
    ∧ (createOrderData clientTotalsInput "credit_card").subtotal ≠
        itemsTotal clientTotalsInput.items
    ∧ (serverOrderData "ORD1" cashBody).total = 50
    ∧ saveOrder allModified true 17 423 99
        (orderFromCreateData (createOrderData clientTotalsInput "credit_card")
          "CLIENT-123") = .ok clientOrderDataSaved
    ∧ clientOrderDataSaved.deliveryFee = 5
    ∧ clientOrderDataSaved.tax = 1
    ∧ clientOrderDataSaved.subtotal = 10
    ∧ clientOrderDataSaved.totalAmount = 16 := by
  have h1 : (createOrderData clientTotalsInput "credit_card").subtotal = 999 := by
    decide
  have h3 : itemsTotal clientTotalsInput.items = 10 := by
    norm_num [itemsTotal, clientTotalsInput]
  have hval : validateOrder
      (orderFromCreateData (createOrderData clientTotalsInput "credit_card")
        "CLIENT-123") = true := by
    decide
  have hsave : saveOrder allModified true 17 423 99
      (orderFromCreateData (createOrderData clientTotalsInput "credit_card")
        "CLIENT-123") = .ok clientOrderDataSaved := by
    unfold saveOrder
    rw [hval]
    simp [orderNumberHook, totalHook, statusTimestampHook, itemsTotal, allModified,
          orderFromCreateData, createOrderData, calculatedSubtotal,
          calculatedDeliveryFee, calculatedTax, calculatedTip, calculatedTotal,
          jsOrQ, clientTotalsInput, clientOrderDataSaved, Order.mk.injEq]
    norm_num
    decide
  refine ⟨h1, by decide, h3, ?_, by decide, hsave, rfl, rfl, rfl, rfl⟩
  rw [h1, h3]
  norm_num

/-- C6 amended: in the handlers, client-supplied totals are authoritative
when present and nonzero — part_000 places them verbatim in its orderData
with the item/fee computation only as a fallback for absent or zero
values, and server.js stores parseFloat of each body field (default 0)
with no recomputation, so on that path the client total is the persisted
total. On the part_000 path, the pre-save total hook of the order model
then overwrites subtotal with the item sum and totalAmount with the fee
formula on the new-document save, so the client subtotal and total do not
survive to the persisted order there — but the client deliveryFee, tax
and tip feed that recomputation verbatim. -/
theorem clientTotals_advisory_fallback (inp : CreateTotalsInput) (pm n : String)
    (body : ServerCreateBody) (v : ℚ) (num : String) (ts rnd now : ℕ)
    (saved : Order) :
    (inp.subtotal = none → (createOrderData inp pm).subtotal = itemsTotal inp.items)
    ∧ (inp.subtotal = some v → v ≠ 0 → (createOrderData inp pm).subtotal = v)
    ∧ (inp.total = some v → v ≠ 0 → (createOrderData inp pm).totalAmount = v)
    ∧ (inp.total = none →
        (createOrderData inp pm).totalAmount =
          calculatedSubtotal inp + calculatedDeliveryFee inp + calculatedTax inp +
            calculatedTip inp)
    ∧ (body.total = some v → v ≠ 0 → (serverOrderData n body).total = v)
    ∧ (body.total = none → (serverOrderData n body).total = 0)
    ∧ (saveOrder allModified true ts rnd now
          (orderFromCreateData (createOrderData inp pm) num) = .ok saved →
        saved.subtotal = itemsTotal inp.items
        ∧ saved.deliveryFee = calculatedDeliveryFee inp
        ∧ saved.tax = calculatedTax inp
        ∧ saved.totalAmount =
            itemsTotal inp.items + calculatedDeliveryFee inp + calculatedTax inp +
              calculatedTip inp) := by
  refine ⟨?_, ?_, ?_, ?_, ?_, ?_, ?_⟩
  · intro h
    simp [createOrderData, calculatedSubtotal, jsOrQ, h]
  · intro h h2
    simp [createOrderData, calculatedSubtotal, jsOrQ, h, h2]
  · intro h h2
    simp [createOrderData, calculatedTotal, jsOrQ, h, h2]
  · intro h
    simp [createOrderData, calculatedTotal, jsOrQ, h]
  · intro h h2
    simp [serverOrderData, jsOrQ, h, h2]
  · intro h
    simp [serverOrderData, jsOrQ, h]
  · intro hs
    unfold saveOrder at hs
    split at hs
    · injection hs with h
      subst h
      obtain ⟨-, -, si, ssub, sdf, stx, ssf, stp, sda, sta⟩ :=
        statusTimestampHook_fields allModified now
          (totalHook allModified
            (orderNumberHook true ts rnd (orderFromCreateData (createOrderData inp pm) num)))
      obtain ⟨tsub, tta⟩ :=
        totalHook_computed allModified
          (orderNumberHook true ts rnd (orderFromCreateData (createOrderData inp pm) num))
          (by decide)
      obtain ⟨-, -, ti, tdf, ttx, tsf, ttp, tda, -, -⟩ :=
        totalHook_fields allModified
          (orderNumberHook true ts rnd (orderFromCreateData (createOrderData inp pm) num))
      obtain ⟨-, oi, -, odf, otx, osf, otp, oda, -, -, -⟩ :=
        orderNumberHook_fields true ts rnd (orderFromCreateData (createOrderData inp pm) num)
      refine ⟨?_, ?_, ?_, ?_⟩
      · rw [ssub, tsub, oi]
        rfl
      · rw [sdf, tdf, odf]
        rfl
      · rw [stx, ttx, otx]
        rfl
      · rw [sta, tta, oi, odf, otx, osf, otp, oda]
        simp [orderFromCreateData, createOrderData]
    · cases hs

/-- Witness for C6 amended: with the client subtotal absent the fallback
recomputes from the items; with the dishonest client values the orderData
carries 999 and the server.js flow stores total 50; and the concrete
hook-bearing save of that orderData persists the item sum as subtotal,
the client fee and tax verbatim, and the recomputed totalAmount. -/
theorem clientTotals_advisory_fallback_witness :
    (createOrderData { clientTotalsInput with subtotal := none } "credit_card").subtotal =
      itemsTotal clientTotalsInput.items
    ∧ (createOrderData clientTotalsInput "credit_card").subtotal = 999
    ∧ (serverOrderData "ORD1" cashBody).total = 50
    ∧ (clientOrderDataSaved.subtotal = itemsTotal clientTotalsInput.items
       ∧ clientOrderDataSaved.deliveryFee = calculatedDeliveryFee clientTotalsInput
       ∧ clientOrderDataSaved.tax = calculatedTax clientTotalsInput
       ∧ clientOrderDataSaved.totalAmount =
           itemsTotal clientTotalsInput.items +
             calculatedDeliveryFee clientTotalsInput +
             calculatedTax clientTotalsInput + calculatedTip clientTotalsInput) := by
  have hval : validateOrder
      (orderFromCreateData (createOrderData clientTotalsInput "credit_card")
        "CLIENT-123") = true := by
    decide
  have hsave : saveOrder allModified true 17 423 99
      (orderFromCreateData (createOrderData clientTotalsInput "credit_card")
        "CLIENT-123") = .ok clientOrderDataSaved := by
    unfold saveOrder
    rw [hval]
    simp [orderNumberHook, totalHook, statusTimestampHook, itemsTotal, allModified,
          orderFromCreateData, createOrderData, calculatedSubtotal,
          calculatedDeliveryFee, calculatedTax, calculatedTip, calculatedTotal,
          jsOrQ, clientTotalsInput, clientOrderDataSaved, Order.mk.injEq]
    norm_num
    decide
  refine ⟨?_, ?_, ?_, ?_⟩
  · exact (clientTotals_advisory_fallback
      { clientTotalsInput with subtotal := none } "credit_card" "ORD1" cashBody 0
      "CLIENT-123" 17 423 99 clientOrderDataSaved).1 rfl
  · exact (clientTotals_advisory_fallback clientTotalsInput "credit_card" "ORD1"
      cashBody 999 "CLIENT-123" 17 423 99 clientOrderDataSaved).2.1 rfl (by norm_num)
  · exact (clientTotals_advisory_fallback clientTotalsInput "credit_card" "ORD1"
      cashBody 50 "CLIENT-123" 17 423 99 clientOrderDataSaved).2.2.2.2.1 rfl
      (by norm_num)
  · exact (clientTotals_advisory_fallback clientTotalsInput "credit_card" "ORD1"
      cashBody 0 "CLIENT-123" 17 423 99 clientOrderDataSaved).2.2.2.2.2.2 hsave

/-- C7 counterexample: a cash order is created with status confirmed, not
pending — it is the paymentStatus, not the status, that depends on the
payment method. -/
theorem cashOrder_starts_confirmed :
    (createOrderData clientTotalsInput "cash").status = "confirmed"
    ∧ (createOrderData clientTotalsInput "cash").status ≠ "pending"
    ∧ (createOrderData clientTotalsInput "cash").paymentStatus = "pending"
    ∧ (serverOrderData "ORD1" cashBody).status = "confirmed" := by
  refine ⟨rfl, by decide, rfl, rfl⟩

/-- C7 amended: every order built by the create handlers starts with
status confirmed regardless of payment method; the payment method only
selects the initial paymentStatus, pending for cash and completed for the
pre-paid methods. -/
theorem createOrderData_initial_status (inp : CreateTotalsInput) (pm n : String)
    (body : ServerCreateBody) :
    (createOrderData inp pm).status = "confirmed"
    ∧ (createOrderData inp pm).paymentStatus =
        (if pm == "cash" then "pending" else "completed")
    ∧ (serverOrderData n body).status = "confirmed" :=
  ⟨rfl, rfl, rfl⟩

/-- C9: once the order is persisted, the creation response is always the
201 success payload carrying the saved order, whatever the notification
outcomes — missing credentials, transport failures, or even a thrown
error from either send — and the admin notification does not depend on
the customer one. -/
theorem createOrderRespond_success (savedOrder : ServerOrderData)
    (contactEmail : Option String) (credsConfigured : Bool)
    (customerTransport adminTransport : Except String Unit) :
    (createOrderRespond savedOrder contactEmail credsConfigured customerTransport
        adminTransport).2 =
      { statusCode := 201, success := true, order := savedOrder, emailSent := true }
    ∧ (emailDispatch contactEmail credsConfigured customerTransport
        adminTransport).adminEmail =
        sendAdminNotification credsConfigured adminTransport :=
  ⟨rfl, rfl⟩
